import Mathlib

/-
Shallow embedding of granulate_utils/containers/cri.py (the CRI client:
version-negotiated probing of runtime sockets, a per-runtime client, and the
multi-runtime aggregator), together with the data model it constructs.

Conventions of the embedding:
* gRPC calls are modelled by their outcome: `RpcResult α` is either the
  response message or a status code carried by the raised
  `grpc._channel._InactiveRpcError`.
* Python exceptions become the `PyExc` error type of an `Except PyExc _`
  computation; an uncaught exception propagates through the monadic match
  chain exactly as it unwinds the Python stack.
* A daemon (one runtime socket under one protocol generation) is a record of
  the responses it gives to each RPC the code issues; the host process table
  (psutil) rides along as `processExists`.
* `datetime.fromtimestamp(x / 1e9, tz=timezone.utc)` is modelled over exact
  rationals: `fromtimestampUtc (x / 1000000000 : ℚ)`; float rounding is
  abstracted away (none of the verified statements depend on it).
* The parsed verbose-info JSON document (`json.loads` of the `"info"` map
  entry) is modelled by the one field the code consumes, `pid`.
-/

namespace Cri

/-- gRPC status codes distinguished by the code, plus representatives of the
codes it never inspects. -/
inductive StatusCode
  | notFound
  | unimplemented
  | unavailable
  | internal
  | deadlineExceeded
deriving DecidableEq, Repr

/-- Outcome of one gRPC call: the response, or the status code of the
`grpc._channel._InactiveRpcError` it raised. -/
inductive RpcResult (α : Type)
  | ok (a : α)
  | err (code : StatusCode)
deriving DecidableEq, Repr

/-- The Python exceptions the translated code can raise or handle. -/
inductive PyExc
  | rpcError (code : StatusCode)      -- grpc._channel._InactiveRpcError
  | keyError (key : String)           -- KeyError from d[k]
  | typeError                         -- TypeError: iterating None
  | attributeError                    -- AttributeError: attribute of None
  | containerNotFound (id : String)   -- exceptions.ContainerNotFound
  | criNotAvailable (paths : List String)  -- exceptions.CriNotAvailableError
deriving DecidableEq, Repr

/-- Whether an exception is an instance of grpc.RpcError (what
`except grpc.RpcError` catches; `_InactiveRpcError` is its subclass). -/
def PyExc.isRpcError : PyExc → Bool
  | .rpcError _ => true
  | _ => false

/-- Modelled from the spec: one interface's counters (Network record of
containers/container.py, a file outside src/); fields are exactly those
cri.py constructs. -/
structure Network where
  name : String
  rx_bytes : Nat
  rx_errors : Nat
  tx_bytes : Nat
  tx_errors : Nat
deriving DecidableEq, Repr

/-- A `datetime` in timezone.utc, identified by its (exact, rational)
seconds-since-epoch value. -/
structure UTCTimestamp where
  seconds : ℚ
deriving DecidableEq, Repr

/-- datetime.fromtimestamp(s, tz=timezone.utc). -/
def fromtimestampUtc (s : ℚ) : UTCTimestamp := ⟨s⟩

/-- Modelled from the spec: creation/start timestamps (TimeInfo of
containers/container.py, outside src/); `create_time` is always present,
`start_time` optional. -/
structure TimeInfo where
  create_time : UTCTimestamp
  start_time : Option UTCTimestamp
deriving DecidableEq, Repr

/-- The CRI ContainerState enum (api_pb2). -/
inductive ContainerState
  | created
  | running
  | exited
  | unknown
deriving DecidableEq, Repr

/-- Modelled from the spec: the canonical Container record
(containers/container.py, outside src/); fields are those the constructor
call in `_create_container` passes. A live psutil.Process handle is
identified by its pid. -/
structure Container where
  runtime : String
  name : String
  id : String
  labels : List (String × String)
  running : Bool
  process : Option Int
  time_info : Option TimeInfo
  networks : List Network
deriving DecidableEq, Repr

/-- A summary record of the ListContainers response (proto Container
message), restricted to the fields the code reads. -/
structure RuntimeContainer where
  id : String
  pod_sandbox_id : String
  labels : List (String × String)
  annotations : List (String × String)
  state : ContainerState
deriving DecidableEq, Repr

/-- The proto ContainerStatus message, restricted to the fields the code
reads; `created_at`/`started_at` are nanosecond epoch int64s. -/
structure ContainerStatusMsg where
  id : String
  labels : List (String × String)
  annotations : List (String × String)
  state : ContainerState
  created_at : Int
  started_at : Int
deriving DecidableEq, Repr

/-- The parsed verbose-info JSON document (`json.loads` of one value of the
response's `info` map), restricted to the consumed field. -/
structure InfoJson where
  pid : Option Int
deriving DecidableEq, Repr

/-- The ContainerStatusResponse message: the status plus the `info` string
map (each value modelled already parsed). -/
structure ContainerStatusResponse where
  status : ContainerStatusMsg
  info : List (String × InfoJson)
deriving DecidableEq, Repr

/-- One interface of the PodSandboxStats response
(`stats.stats.linux.network.interfaces` elements). -/
structure NetInterface where
  name : String
  rx_bytes : Nat
  rx_errors : Nat
  tx_bytes : Nat
  tx_errors : Nat
deriving DecidableEq, Repr

/-- proto NetworkUsage: the interface list (the code reads only
`interfaces`). -/
structure NetworkUsage where
  interfaces : List NetInterface
deriving DecidableEq, Repr

/-- proto LinuxPodSandboxStats, restricted to `network`. -/
structure LinuxPodSandboxStats where
  network : NetworkUsage
deriving DecidableEq, Repr

/-- proto PodSandboxStats, restricted to `linux`. -/
structure PodSandboxStatsMsg where
  linux : LinuxPodSandboxStats
deriving DecidableEq, Repr

/-- The PodSandboxStatsResponse message, restricted to `stats`. -/
structure PodSandboxStatsResponse where
  stats : PodSandboxStatsMsg
deriving DecidableEq, Repr

/-- The message `_create_container` receives: either a ListContainers
summary record or a ContainerStatus (the isinstance check distinguishes
them). -/
inductive ContainerMsg
  | summary (c : RuntimeContainer)
  | status (s : ContainerStatusMsg)
deriving DecidableEq, Repr

/-- `.id` of either message. -/
def ContainerMsg.id : ContainerMsg → String
  | .summary c => c.id
  | .status s => s.id

/-- `.labels` of either message. -/
def ContainerMsg.labels : ContainerMsg → List (String × String)
  | .summary c => c.labels
  | .status s => s.labels

/-- `.annotations` of either message. -/
def ContainerMsg.annots : ContainerMsg → List (String × String)
  | .summary c => c.annotations
  | .status s => s.annotations

/-- `.state` of either message. -/
def ContainerMsg.state : ContainerMsg → ContainerState
  | .summary c => c.state
  | .status s => s.state

/-- One runtime daemon as reachable through one protocol generation's stub:
the response each RPC of the code elicits, plus the host process table
(psutil) consulted by `_create_container`. -/
structure Daemon where
  /-- Version RPC, restricted to the consumed `runtime_name` field. -/
  version : RpcResult String
  /-- ListContainers RPC: the `.containers` list of its response. -/
  listContainers : RpcResult (List RuntimeContainer)
  /-- ContainerStatus RPC, keyed by (container_id, verbose). -/
  containerStatus : String → Bool → RpcResult ContainerStatusResponse
  /-- PodSandboxStats RPC, keyed by pod_sandbox_id. -/
  podSandboxStats : String → RpcResult PodSandboxStatsResponse
  /-- psutil.Process(pid) succeeds (does not raise NoSuchProcess). -/
  processExists : Int → Bool

/-- A constructed `_Client`: its `runtime_name` (from the Version RPC at
construction) and the daemon its stub talks to. -/
structure ClientState where
  runtime_name : String
  daemon : Daemon

/-- Python `s.startswith(pre)`: is `pre` a prefix of `s`? Stated over the
character lists so that concrete runs reduce in the kernel. -/
def pyStartswith (s pre : String) : Bool :=
  List.isPrefixOf pre.data s.data

/-- Python dict lookup `m.get(k)` over an association list; a dict built by
comprehension keeps the last binding of a key. -/
def pyDictLookup {α : Type} (m : List (String × α)) (k : String) : Option α :=
  ((m.filter (fun kv => kv.1 == k)).getLast?).map (fun kv => kv.2)

/-- Python dict lookup `m.get(k, d)` with a default. -/
def pyDictLookupD {α : Type} (m : List (String × α)) (k : String) (d : α) : α :=
  (pyDictLookup m k).getD d

/-- Python dict subscript `m[k]`: KeyError when the key is absent. -/
def pyDictGet {α : Type} (m : List (String × α)) (k : String) : Except PyExc α :=
  match pyDictLookup m k with
  | some v => .ok v
  | none => .error (.keyError k)

/-- `_Client._wrap_grpc_request`: run the request; a NOT_FOUND
`_InactiveRpcError` becomes `none`, any other status re-raises. -/
def wrapGrpcRequest {α : Type} (r : RpcResult α) : Except PyExc (Option α) :=
  match r with
  | .ok a => .ok (some a)
  | .err code => if code = .notFound then .ok none else .error (.rpcError code)

/-- `_Client._reconstruct_name`: the dockershim-compatible name from four
labels and one annotation; a missing key raises KeyError. -/
def reconstructName (container : ContainerMsg) : Except PyExc String :=
  match pyDictGet container.labels "io.kubernetes.container.name" with
  | .error e => .error e
  | .ok container_name =>
  match pyDictGet container.labels "io.kubernetes.pod.name" with
  | .error e => .error e
  | .ok sandbox_name =>
  match pyDictGet container.labels "io.kubernetes.pod.namespace" with
  | .error e => .error e
  | .ok pod_namespace =>
  match pyDictGet container.labels "io.kubernetes.pod.uid" with
  | .error e => .error e
  | .ok sandbox_uid =>
  match pyDictGet container.annots "io.kubernetes.container.restartCount" with
  | .error e => .error e
  | .ok restart_count =>
    .ok (String.intercalate "_"
      ["k8s", container_name, sandbox_name, pod_namespace, sandbox_uid, restart_count])

/-- `json.loads(status_response.info.get("info", "{}")).get("pid")`. -/
def extractPid (info : List (String × InfoJson)) : Option Int :=
  (pyDictLookupD info "info" ⟨none⟩).pid

/-- `_Client._get_networks`: wrapped PodSandboxStats;
`stats.stats.linux.network.interfaces` on success, `None` on NOT_FOUND. -/
def getNetworksInner (d : Daemon) (pod_sandbox_id : String) :
    Except PyExc (Option (List NetInterface)) :=
  match wrapGrpcRequest (d.podSandboxStats pod_sandbox_id) with
  | .error e => .error e
  | .ok none => .ok none
  | .ok (some stats) => .ok (some stats.stats.linux.network.interfaces)

/-- `_Client._container_sandbox_mapping`: wrapped ListContainers, then the
id → pod_sandbox_id dict comprehension (attribute access on None raises
AttributeError when the wrapped call returned None). -/
def containerSandboxMapping (d : Daemon) : Except PyExc (List (String × String)) :=
  match wrapGrpcRequest d.listContainers with
  | .error e => .error e
  | .ok none => .error .attributeError
  | .ok (some containers) =>
      .ok (containers.map (fun c => (c.id, c.pod_sandbox_id)))

/-- `_Client.get_networks`: mapping lookup by subscript (KeyError if the id
is unknown), then `_get_networks`, then the list comprehension filtering
interface names by `startswith("eth")`; iterating the `None` returned for a
NOT_FOUND stats query raises TypeError. -/
def getNetworks (cl : ClientState) (container_id : String) :
    Except PyExc (List Network) :=
  match containerSandboxMapping cl.daemon with
  | .error e => .error e
  | .ok mapping =>
  match pyDictGet mapping container_id with
  | .error e => .error e
  | .ok sandbox_id =>
  match getNetworksInner cl.daemon sandbox_id with
  | .error e => .error e
  | .ok none => .error .typeError
  | .ok (some net_interfaces) =>
      .ok ((net_interfaces.filter (fun ni => pyStartswith ni.name "eth")).map
        (fun ni => Network.mk ni.name ni.rx_bytes ni.rx_errors ni.tx_bytes ni.tx_errors))

/-- The `time_info` computed by `_create_container`: a TimeInfo only when
the message is a ContainerStatus; 0 `started_at` means not started. -/
def mkTimeInfo (container : ContainerMsg) : Option TimeInfo :=
  match container with
  | .status s =>
      some { create_time := fromtimestampUtc ((s.created_at : ℚ) / 1000000000)
             start_time :=
               if s.started_at ≠ 0 then
                 some (fromtimestampUtc ((s.started_at : ℚ) / 1000000000))
               else none }
  | .summary _ => none

/-- The `process` computed by `_create_container`: a handle only for a
present, non-zero pid that psutil still resolves. -/
def mkProcess (d : Daemon) (pid : Option Int) : Option Int :=
  match pid with
  | some p => if p ≠ 0 ∧ d.processExists p then some p else none
  | none => none

/-- `_Client._create_container`: the Container constructor's arguments
evaluate name reconstruction before network enrichment; time_info and
process as computed above. -/
def createContainer (cl : ClientState) (container : ContainerMsg) (pid : Option Int) :
    Except PyExc Container :=
  match reconstructName container with
  | .error e => .error e
  | .ok name =>
  match getNetworks cl container.id with
  | .error e => .error e
  | .ok networks =>
      .ok { runtime := cl.runtime_name
            name := name
            id := container.id
            labels := container.labels
            running := container.state == ContainerState.running
            process := mkProcess cl.daemon pid
            time_info := mkTimeInfo container
            networks := networks }

/-- `_Client._get_container`: wrapped ContainerStatus query; on NOT_FOUND
`None`, otherwise pid extraction from the verbose info and
`_create_container` over the status message. -/
def getContainerInner (cl : ClientState) (container_id : String) (verbose : Bool) :
    Except PyExc (Option Container) :=
  match wrapGrpcRequest (cl.daemon.containerStatus container_id verbose) with
  | .error e => .error e
  | .ok none => .ok none
  | .ok (some status_response) =>
  match createContainer cl (.status status_response.status) (extractPid status_response.info) with
  | .error e => .error e
  | .ok c => .ok (some c)

/-- `_Client.get_container`. -/
def clientGetContainer (cl : ClientState) (container_id : String) (all_info : Bool) :
    Except PyExc (Option Container) :=
  getContainerInner cl container_id all_info

/-- The loop body of `_Client.list_containers`: verbose per-container
re-query (skipping `None`) when `all_info`, direct summary translation
otherwise. -/
def listLoop (cl : ClientState) (all_info : Bool) :
    List RuntimeContainer → Except PyExc (List Container)
  | [] => .ok []
  | rc :: rest =>
    if all_info then
      match getContainerInner cl rc.id true with
      | .error e => .error e
      | .ok oc =>
        match listLoop cl all_info rest with
        | .error e => .error e
        | .ok cs => .ok (match oc with | some c => c :: cs | none => cs)
    else
      match createContainer cl (.summary rc) none with
      | .error e => .error e
      | .ok c =>
        match listLoop cl all_info rest with
        | .error e => .error e
        | .ok cs => .ok (c :: cs)

/-- `_Client.list_containers`: the unwrapped ListContainers RPC (its errors
propagate), then the loop. -/
def clientListContainers (cl : ClientState) (all_info : Bool) :
    Except PyExc (List Container) :=
  match cl.daemon.listContainers with
  | .err code => .error (.rpcError code)
  | .ok rcs => listLoop cl all_info rcs

/-- `_Client.__init__`: issue the Version RPC through a fresh stub and keep
`runtime_name`; the RpcError of a failed call propagates. -/
def clientInit (d : Daemon) : Except PyExc ClientState :=
  match d.version with
  | .ok runtime_name => .ok ⟨runtime_name, d⟩
  | .err code => .error (.rpcError code)

/-- `_try_cri_client`, parametrized by the outcome of the `client(path)`
construction it wraps (its `client` argument is a constructor): `except
grpc.RpcError: return None`, anything else propagates. -/
def tryCriClientWith (construct : Except PyExc ClientState) :
    Except PyExc (Option ClientState) :=
  match construct with
  | .ok c => .ok (some c)
  | .error e => if e.isRpcError then .ok none else .error e

/-- `_try_cri_client(path, client)` against the daemon reachable at that
path under the chosen generation. -/
def tryCriClient (d : Daemon) : Except PyExc (Option ClientState) :=
  tryCriClientWith (clientInit d)

/-- The world a CriClient is constructed in: the host-path resolver
(`ns.resolve_host_root_links`, an external collaborator) and, per resolved
"unix://…" address, the daemon behavior under each protocol generation. -/
structure CriWorld where
  resolveHostRootLinks : String → String
  v1 : String → Daemon
  v1alpha2 : String → Daemon

/-- `_get_client`: resolve the socket path, then
`_try_cri_client(path, V1Client) or _try_cri_client(path, V1Alpha2Client)`
(Python `or`: the second probe runs only when the first returned None). -/
def getClient (w : CriWorld) (path : String) : Except PyExc (Option ClientState) :=
  let p := "unix://" ++ w.resolveHostRootLinks path
  match tryCriClient (w.v1 p) with
  | .error e => .error e
  | .ok (some c) => .ok (some c)
  | .ok none => tryCriClient (w.v1alpha2 p)

/-- The well-known socket paths. -/
def RUNTIMES : List String :=
  ["/run/containerd/containerd.sock", "/var/run/crio/crio.sock"]

/-- The probe loop of `CriClient.__init__`: `_get_client` per path, keeping
the truthy results in order. -/
def probeLoop (w : CriWorld) : List String → Except PyExc (List ClientState)
  | [] => .ok []
  | path :: rest =>
    match getClient w path with
    | .error e => .error e
    | .ok oc =>
      match probeLoop w rest with
      | .error e => .error e
      | .ok cs => .ok (match oc with | some c => c :: cs | none => cs)

/-- `CriClient.__init__`: probe every path of RUNTIMES; raise
CriNotAvailableError when no client was obtained. -/
def criClientInit (w : CriWorld) : Except PyExc (List ClientState) :=
  match probeLoop w RUNTIMES with
  | .error e => .error e
  | .ok clients =>
      if clients.isEmpty then .error (.criNotAvailable RUNTIMES) else .ok clients

/-- `CriClient.get_runtimes`. -/
def getRuntimes (clients : List ClientState) : List String :=
  clients.map (fun cl => cl.runtime_name)

/-- `CriClient.get_container`: first non-None per-client result in probe
order; ContainerNotFound when every client returned None. -/
def criGetContainer (clients : List ClientState) (container_id : String) (all_info : Bool) :
    Except PyExc Container :=
  match clients with
  | [] => .error (.containerNotFound container_id)
  | cl :: rest =>
    match clientGetContainer cl container_id all_info with
    | .error e => .error e
    | .ok (some c) => .ok c
    | .ok none => criGetContainer rest container_id all_info

/-- The probe's net outcome for one path (the client `_get_client` yields,
when it yields one). -/
def probeOutcome (w : CriWorld) (path : String) : Option ClientState :=
  ((getClient w path).toOption).join

/-! Concrete daemon states used to instantiate the theorems. -/

/-- Kubernetes labels of the example container (all four required keys). -/
def exLabels : List (String × String) :=
  [("io.kubernetes.container.name", "app"),
   ("io.kubernetes.pod.name", "pod"),
   ("io.kubernetes.pod.namespace", "default"),
   ("io.kubernetes.pod.uid", "uid1"),
   ("other", "x")]

/-- Annotations of the example container (the restartCount key). -/
def exAnnots : List (String × String) :=
  [("io.kubernetes.container.restartCount", "3")]

/-- Example verbose ContainerStatus: running, created at 1s, never started. -/
def exStatus : ContainerStatusMsg :=
  { id := "c1", labels := exLabels, annotations := exAnnots,
    state := .running, created_at := 1000000000, started_at := 0 }

/-- Example ListContainers summary record for the same container. -/
def exRc : RuntimeContainer :=
  { id := "c1", pod_sandbox_id := "s1", labels := exLabels,
    annotations := exAnnots, state := .running }

/-- Example sandbox interfaces: spec section 8's mixed interface list. -/
def exIfaces : List NetInterface :=
  [⟨"eth0", 10, 1, 20, 2⟩, ⟨"lo", 5, 0, 5, 0⟩,
   ⟨"docker0", 1, 1, 1, 1⟩, ⟨"eth1", 7, 0, 8, 0⟩]

/-- A healthy daemon: knows container c1 in sandbox s1 with stats. -/
def exDaemonHit : Daemon :=
  { version := .ok "containerd"
    listContainers := .ok [exRc]
    containerStatus := fun cid _ =>
      if cid == "c1" then .ok ⟨exStatus, []⟩ else .err .notFound
    podSandboxStats := fun sid =>
      if sid == "s1" then .ok ⟨⟨⟨⟨exIfaces⟩⟩⟩⟩ else .err .notFound
    processExists := fun p => p == 42 }

/-- The client bound to the healthy daemon. -/
def exClientHit : ClientState := ⟨"containerd", exDaemonHit⟩

/-- A daemon whose per-container queries all answer NOT_FOUND. -/
def exDaemonNF : Daemon :=
  { version := .ok "crio"
    listContainers := .ok []
    containerStatus := fun _ _ => .err .notFound
    podSandboxStats := fun _ => .err .notFound
    processExists := fun _ => false }

/-- The client bound to the all-NOT_FOUND daemon. -/
def exClientNF : ClientState := ⟨"crio", exDaemonNF⟩

/-- The Container the healthy daemon's data translates to (summary form has
`time_info := none`). -/
def exHitContainer : Container :=
  { runtime := "containerd"
    name := "k8s_app_pod_default_uid1_3"
    id := "c1"
    labels := exLabels
    running := true
    process := none
    time_info := some { create_time := fromtimestampUtc (((1000000000 : Int) : ℚ) / 1000000000)
                        start_time := none }
    networks := [⟨"eth0", 10, 1, 20, 2⟩, ⟨"eth1", 7, 0, 8, 0⟩] }

/-- The Container a non-verbose list query translates exRc to: same data,
but no TimeInfo. -/
def exSummaryContainer : Container :=
  { exHitContainer with time_info := none }

/-- A daemon whose Version RPC fails with INTERNAL (an error class that is
neither "unimplemented/not found" nor a connection-establishment failure). -/
def exDaemonInternal : Daemon :=
  { version := .err .internal
    listContainers := .ok []
    containerStatus := fun _ _ => .err .notFound
    podSandboxStats := fun _ => .err .notFound
    processExists := fun _ => false }

/-- A daemon that lists c1 but answers NOT_FOUND to every sandbox-stats
query (the sandbox disappeared between mapping and stats). -/
def exDaemonStatsNF : Daemon :=
  { version := .ok "containerd"
    listContainers := .ok [exRc]
    containerStatus := fun _ _ => .err .notFound
    podSandboxStats := fun _ => .err .notFound
    processExists := fun _ => false }

/-- The client bound to the stats-NOT_FOUND daemon. -/
def exClientStatsNF : ClientState := ⟨"containerd", exDaemonStatsNF⟩

/-- A world where every v1 endpoint fails Version with INTERNAL and every
v1alpha2 endpoint works. -/
def exWorldInternal : CriWorld :=
  { resolveHostRootLinks := fun p => p
    v1 := fun _ => exDaemonInternal
    v1alpha2 := fun _ => exDaemonNF }

/-- A world where every v1 endpoint is the healthy daemon. -/
def exWorldBoth : CriWorld :=
  { resolveHostRootLinks := fun p => p
    v1 := fun _ => exDaemonHit
    v1alpha2 := fun _ => exDaemonNF }

/-! Helper lemmas: which exception classes each translated operation can
raise, and how its successful results look. -/

/-- `"_".join` of the six name pieces, written out. -/
theorem intercalate_six (a b c d e f : String) :
    String.intercalate "_" [a, b, c, d, e, f] =
      a ++ "_" ++ b ++ "_" ++ c ++ "_" ++ d ++ "_" ++ e ++ "_" ++ f := by
  simp [String.intercalate, String.intercalate.go, String.append_assoc]

/-- A successful dict subscript is exactly a successful lookup. -/
theorem pyDictGet_eq_ok {α : Type} {m : List (String × α)} {k : String} {v : α} :
    pyDictGet m k = .ok v ↔ pyDictLookup m k = some v := by
  unfold pyDictGet
  rcases h : pyDictLookup m k <;> simp [h]

/-- Lookup misses when no binding carries the key. -/
theorem pyDictLookup_none {α : Type} {m : List (String × α)} {k : String}
    (h : ∀ kv ∈ m, kv.1 ≠ k) : pyDictLookup m k = none := by
  unfold pyDictLookup
  have hf : m.filter (fun kv => kv.1 == k) = [] := by
    rw [List.filter_eq_nil_iff]
    intro a ha
    simp [h a ha]
  rw [hf]
  rfl

/-- A wrapped gRPC request only raises `rpcError`s. -/
theorem wrapGrpcRequest_error {α : Type} {r : RpcResult α} {e : PyExc}
    (h : wrapGrpcRequest r = .error e) : ∃ code, e = .rpcError code := by
  rcases r with a | code
  · simp [wrapGrpcRequest] at h
  · by_cases hc : code = StatusCode.notFound
    · simp [wrapGrpcRequest, hc] at h
    · simp [wrapGrpcRequest, hc] at h
      exact ⟨code, h.symm⟩

/-- A dict subscript only raises the KeyError of its key. -/
theorem pyDictGet_error {α : Type} {m : List (String × α)} {k : String} {e : PyExc}
    (h : pyDictGet m k = .error e) : e = .keyError k := by
  unfold pyDictGet at h
  rcases hl : pyDictLookup m k with _ | v <;> simp [hl] at h
  exact h.symm

/-- Name reconstruction only raises KeyErrors. -/
theorem reconstructName_error {c : ContainerMsg} {e : PyExc}
    (h : reconstructName c = .error e) : ∃ k, e = .keyError k := by
  unfold reconstructName at h
  repeat' split at h
  all_goals simp_all
  all_goals rename_i heq2
  all_goals exact ⟨_, pyDictGet_error heq2⟩

/-- The id → sandbox-id mapping step raises only rpcErrors or the
AttributeError of reading `.containers` off None. -/
theorem containerSandboxMapping_error {d : Daemon} {e : PyExc}
    (h : containerSandboxMapping d = .error e) :
    (∃ code, e = .rpcError code) ∨ e = .attributeError := by
  unfold containerSandboxMapping at h
  split at h
  · rename_i e2 heq
    injection h with h
    subst h
    exact Or.inl (wrapGrpcRequest_error heq)
  · injection h with h
    exact Or.inr h.symm
  · simp at h

/-- The inner sandbox-stats step raises only rpcErrors. -/
theorem getNetworksInner_error {d : Daemon} {sid : String} {e : PyExc}
    (h : getNetworksInner d sid = .error e) : ∃ code, e = .rpcError code := by
  unfold getNetworksInner at h
  split at h
  · rename_i e2 heq
    injection h with h
    subst h
    exact wrapGrpcRequest_error heq
  · simp at h
  · simp at h

/-- `get_networks` never raises ContainerNotFound. -/
theorem getNetworks_error {cl : ClientState} {cid : String} {e : PyExc}
    (h : getNetworks cl cid = .error e) : ∀ s, e ≠ .containerNotFound s := by
  unfold getNetworks at h
  split at h
  · rename_i e2 heq
    injection h with h
    subst h
    rcases containerSandboxMapping_error heq with ⟨code, hc⟩ | hc <;> subst hc <;> simp
  · split at h
    · rename_i e2 heq
      injection h with h
      subst h
      have hk := pyDictGet_error heq
      subst hk
      simp
    · split at h
      · rename_i e2 heq
        injection h with h
        subst h
        rcases getNetworksInner_error heq with ⟨code, hc⟩
        subst hc
        simp
      · injection h with h
        subst h
        simp
      · simp at h

/-- `_create_container` never raises ContainerNotFound. -/
theorem createContainer_error {cl : ClientState} {m : ContainerMsg}
    {pid : Option Int} {e : PyExc}
    (h : createContainer cl m pid = .error e) : ∀ s, e ≠ .containerNotFound s := by
  unfold createContainer at h
  split at h
  · rename_i e2 heq
    injection h with h
    subst h
    rcases reconstructName_error heq with ⟨k, hk⟩
    subst hk
    simp
  · split at h
    · rename_i e2 heq
      injection h with h
      subst h
      exact getNetworks_error heq
    · simp at h

/-- A wrapped request that produced a response had a successful RPC. -/
theorem wrapGrpcRequest_ok_some {α : Type} {r : RpcResult α} {a : α}
    (h : wrapGrpcRequest r = .ok (some a)) : r = .ok a := by
  rcases r with b | code
  · simp [wrapGrpcRequest] at h
    subst h
    rfl
  · simp only [wrapGrpcRequest] at h
    split at h <;> simp at h

/-- Shape of every successfully constructed Container. -/
theorem createContainer_ok {cl : ClientState} {m : ContainerMsg}
    {pid : Option Int} {c : Container}
    (h : createContainer cl m pid = .ok c) :
    c.id = m.id ∧ c.time_info = mkTimeInfo m ∧ c.process = mkProcess cl.daemon pid ∧
      getNetworks cl m.id = .ok c.networks := by
  unfold createContainer at h
  split at h
  · simp at h
  · split at h
    · simp at h
    · rename_i nets heq
      injection h with h
      subst h
      exact ⟨rfl, rfl, rfl, heq⟩

/-- A present single-container result comes from a successful status RPC
and `_create_container` over its status message. -/
theorem getContainerInner_ok {cl : ClientState} {cid : String} {v : Bool} {c : Container}
    (h : getContainerInner cl cid v = .ok (some c)) :
    ∃ resp, cl.daemon.containerStatus cid v = .ok resp ∧
      createContainer cl (.status resp.status) (extractPid resp.info) = .ok c := by
  unfold getContainerInner at h
  split at h
  · simp at h
  · simp at h
  · rename_i resp heq
    split at h
    · simp at h
    · rename_i c2 heq2
      injection h with h
      injection h with h
      subst h
      exact ⟨resp, wrapGrpcRequest_ok_some heq, heq2⟩

/-- A live process handle only appears for a non-zero pid that resolves. -/
theorem mkProcess_some {d : Daemon} {pid : Option Int} {p : Int}
    (h : mkProcess d pid = some p) : p ≠ 0 ∧ d.processExists p = true := by
  unfold mkProcess at h
  split at h
  · split at h
    · rename_i hq
      injection h with h
      subst h
      exact ⟨hq.1, hq.2⟩
    · simp at h
  · simp at h

/-- Every Container of a non-verbose list query: no TimeInfo, no process,
networks as the live enrichment returns them. -/
theorem listLoop_false_mem {cl : ClientState} {rcs : List RuntimeContainer}
    {cs : List Container} (h : listLoop cl false rcs = .ok cs) :
    ∀ c ∈ cs, c.time_info = none ∧ c.process = none ∧
      getNetworks cl c.id = .ok c.networks := by
  induction rcs generalizing cs with
  | nil =>
    unfold listLoop at h
    injection h with h
    subst h
    simp
  | cons rc rest ih =>
    unfold listLoop at h
    simp only [Bool.false_eq_true, if_false] at h
    split at h
    · simp at h
    · rename_i c heq
      split at h
      · simp at h
      · rename_i cs2 heq2
        injection h with h
        subst h
        intro c2 hc2
        rcases List.mem_cons.mp hc2 with rfl | hmem
        · obtain ⟨hid, hti, hproc, hnets⟩ := createContainer_ok heq
          exact ⟨hti, hproc, by rw [hid]; exact hnets⟩
        · exact ih heq2 c2 hmem

/-- Every Container of a verbose list query: TimeInfo present, networks
from the live enrichment, process only for a live non-zero pid. -/
theorem listLoop_true_mem {cl : ClientState} {rcs : List RuntimeContainer}
    {cs : List Container} (h : listLoop cl true rcs = .ok cs) :
    ∀ c ∈ cs, (∃ ti, c.time_info = some ti) ∧
      getNetworks cl c.id = .ok c.networks ∧
      (∀ p, c.process = some p → p ≠ 0 ∧ cl.daemon.processExists p = true) := by
  induction rcs generalizing cs with
  | nil =>
    unfold listLoop at h
    injection h with h
    subst h
    simp
  | cons rc rest ih =>
    unfold listLoop at h
    simp only [if_true] at h
    split at h
    · simp at h
    · rename_i oc heq
      split at h
      · simp at h
      · rename_i cs2 heq2
        injection h with h
        subst h
        intro c2 hc2
        rcases oc with _ | c
        · exact ih heq2 c2 hc2
        · rcases List.mem_cons.mp hc2 with rfl | hmem
          · obtain ⟨resp, hrpc, hcreate⟩ := getContainerInner_ok heq
            obtain ⟨hid, hti, hproc, hnets⟩ := createContainer_ok hcreate
            refine ⟨⟨_, by rw [hti]; rfl⟩, by rw [hid]; exact hnets, ?_⟩
            intro p hp
            rw [hproc] at hp
            exact mkProcess_some hp
          · exact ih heq2 c2 hmem

/-- A single client's `get_container` never raises ContainerNotFound (that
exception belongs to the aggregator alone). -/
theorem clientGetContainer_error {cl : ClientState} {cid : String} {a : Bool} {e : PyExc}
    (h : clientGetContainer cl cid a = .error e) : ∀ s, e ≠ .containerNotFound s := by
  unfold clientGetContainer getContainerInner at h
  split at h
  · rename_i e2 heq
    injection h with h
    subst h
    rcases wrapGrpcRequest_error heq with ⟨code, hc⟩
    subst hc
    simp
  · simp at h
  · split at h
    · rename_i e2 heq
      injection h with h
      subst h
      exact createContainer_error heq
    · simp at h

/-- A container whose verbose status query answers NOT_FOUND contributes
nothing to the verbose list loop. -/
theorem listLoop_skip {cl : ClientState} {rc : RuntimeContainer}
    (hnf : cl.daemon.containerStatus rc.id true = .err .notFound) :
    ∀ pre post, listLoop cl true (pre ++ rc :: post) = listLoop cl true (pre ++ post) := by
  have hinner : getContainerInner cl rc.id true = .ok none := by
    simp [getContainerInner, hnf, wrapGrpcRequest]
  intro pre post
  induction pre with
  | nil =>
    simp only [List.nil_append]
    simp only [listLoop, if_true]
    rw [hinner]
    cases h2 : listLoop cl true post <;> simp [h2]
  | cons p pre ih =>
    simp only [List.cons_append]
    simp only [listLoop, if_true]
    rw [ih]

/-- The aggregator's get_container answers ContainerNotFound exactly when
every held client answered absent. -/
theorem criGetContainer_notFound_iff (clients : List ClientState) (cid : String) (a : Bool) :
    criGetContainer clients cid a = .error (.containerNotFound cid) ↔
      ∀ cl ∈ clients, clientGetContainer cl cid a = .ok none := by
  induction clients with
  | nil => simp [criGetContainer]
  | cons cl rest ih =>
    unfold criGetContainer
    cases hres : clientGetContainer cl cid a with
    | error e =>
      simp only [hres]
      constructor
      · intro hcontr
        injection hcontr with h2
        exact absurd h2 (clientGetContainer_error hres cid)
      · intro hall
        have hcl := hall cl (by simp)
        rw [hres] at hcl
        simp at hcl
    | ok oc =>
      cases oc with
      | none => simpa [hres, List.forall_mem_cons] using ih
      | some c => simp [hres, List.forall_mem_cons]

/-- The aggregator's get_container returns the first non-absent result in
probe order. -/
theorem criGetContainer_first (cid : String) (a : Bool) :
    ∀ (pre : List ClientState) (cl : ClientState) (post : List ClientState) (c : Container),
      (∀ cl2 ∈ pre, clientGetContainer cl2 cid a = .ok none) →
      clientGetContainer cl cid a = .ok (some c) →
      criGetContainer (pre ++ cl :: post) cid a = .ok c := by
  intro pre
  induction pre with
  | nil =>
    intro cl post c _ hcl
    simp [criGetContainer, hcl]
  | cons p pre ih =>
    intro cl post c hpre hcl
    have hp : clientGetContainer p cid a = .ok none := hpre p (by simp)
    simp only [List.cons_append, criGetContainer, hp]
    exact ih cl post c (fun cl2 h2 => hpre cl2 (by simp [h2])) hcl

/-- A probe never raises: every grpc.RpcError from construction is caught. -/
theorem tryCriClient_total (d : Daemon) :
    tryCriClient d = .ok (match d.version with
      | .ok v => some ⟨v, d⟩
      | .err _ => none) := by
  cases hv : d.version <;>
    simp [tryCriClient, tryCriClientWith, clientInit, hv, PyExc.isRpcError]

/-- `_get_client` never raises either. -/
theorem getClient_total (w : CriWorld) (path : String) :
    ∃ oc, getClient w path = .ok oc := by
  simp only [getClient]
  rw [tryCriClient_total, tryCriClient_total]
  cases hv1 : (w.v1 ("unix://" ++ w.resolveHostRootLinks path)).version <;> simp [hv1]

/-- `_get_client`'s value is the probe's outcome. -/
theorem getClient_eq_probe (w : CriWorld) (path : String) :
    getClient w path = .ok (probeOutcome w path) := by
  obtain ⟨oc, h⟩ := getClient_total w path
  rw [h]
  simp [probeOutcome, h, Except.toOption, Option.join]

/-- Claim C7: name reconstruction is a pure function of the four
io.kubernetes labels and the restartCount annotation, producing
`k8s_<container>_<pod>_<namespace>_<uid>_<restartCount>`; if any of the
five keys is missing it raises a KeyError instead of degrading. -/
theorem C7_theorem (c : ContainerMsg) (n p ns u r : String) :
    (pyDictLookup c.labels "io.kubernetes.container.name" = some n →
     pyDictLookup c.labels "io.kubernetes.pod.name" = some p →
     pyDictLookup c.labels "io.kubernetes.pod.namespace" = some ns →
     pyDictLookup c.labels "io.kubernetes.pod.uid" = some u →
     pyDictLookup c.annots "io.kubernetes.container.restartCount" = some r →
     reconstructName c =
       .ok ("k8s" ++ "_" ++ n ++ "_" ++ p ++ "_" ++ ns ++ "_" ++ u ++ "_" ++ r)) ∧
    ((pyDictLookup c.labels "io.kubernetes.container.name" = none ∨
      pyDictLookup c.labels "io.kubernetes.pod.name" = none ∨
      pyDictLookup c.labels "io.kubernetes.pod.namespace" = none ∨
      pyDictLookup c.labels "io.kubernetes.pod.uid" = none ∨
      pyDictLookup c.annots "io.kubernetes.container.restartCount" = none) →
     ∃ k, reconstructName c = .error (.keyError k)) := by
  constructor
  · intro h1 h2 h3 h4 h5
    simp only [reconstructName, pyDictGet, h1, h2, h3, h4, h5]
    rw [intercalate_six]
  · intro hmiss
    rcases hg1 : pyDictGet c.labels "io.kubernetes.container.name" with e1 | v1
    · cases pyDictGet_error hg1
      exact ⟨"io.kubernetes.container.name", by simp only [reconstructName, hg1]⟩
    · rcases hg2 : pyDictGet c.labels "io.kubernetes.pod.name" with e2 | v2
      · cases pyDictGet_error hg2
        exact ⟨"io.kubernetes.pod.name", by simp only [reconstructName, hg1, hg2]⟩
      · rcases hg3 : pyDictGet c.labels "io.kubernetes.pod.namespace" with e3 | v3
        · cases pyDictGet_error hg3
          exact ⟨"io.kubernetes.pod.namespace", by simp only [reconstructName, hg1, hg2, hg3]⟩
        · rcases hg4 : pyDictGet c.labels "io.kubernetes.pod.uid" with e4 | v4
          · cases pyDictGet_error hg4
            exact ⟨"io.kubernetes.pod.uid", by simp only [reconstructName, hg1, hg2, hg3, hg4]⟩
          · rcases hg5 : pyDictGet c.annots "io.kubernetes.container.restartCount" with e5 | v5
            · cases pyDictGet_error hg5
              exact ⟨"io.kubernetes.container.restartCount", by simp only [reconstructName, hg1, hg2, hg3, hg4, hg5]⟩
            · exfalso
              rw [pyDictGet_eq_ok] at hg1 hg2 hg3 hg4 hg5
              rcases hmiss with hm | hm | hm | hm | hm <;> simp_all

/-- Claim C7 witness: the example container's name. -/
theorem C7_witness :
    reconstructName (.summary exRc) =
      .ok ("k8s" ++ "_" ++ "app" ++ "_" ++ "pod" ++ "_" ++ "default" ++ "_" ++
        "uid1" ++ "_" ++ "3") :=
  (C7_theorem (.summary exRc) "app" "pod" "default" "uid1" "3").1 rfl rfl rfl rfl rfl

/-- Claim C8: translating a ContainerStatus always yields a TimeInfo whose
create_time is `created_at/1e9` seconds since epoch in UTC; `started_at = 0`
yields an absent start_time, any nonzero value yields `started_at/1e9`. -/
theorem C8_theorem (cl : ClientState) (s : ContainerStatusMsg) (pid : Option Int)
    (c : Container) (h : createContainer cl (.status s) pid = .ok c) :
    ∃ ti, c.time_info = some ti ∧
      ti.create_time = fromtimestampUtc ((s.created_at : ℚ) / 1000000000) ∧
      (s.started_at = 0 → ti.start_time = none) ∧
      (s.started_at ≠ 0 →
        ti.start_time = some (fromtimestampUtc ((s.started_at : ℚ) / 1000000000))) := by
  obtain ⟨hid, hti, hproc, hnets⟩ := createContainer_ok h
  refine ⟨{ create_time := fromtimestampUtc ((s.created_at : ℚ) / 1000000000)
            start_time :=
              if s.started_at ≠ 0 then
                some (fromtimestampUtc ((s.started_at : ℚ) / 1000000000))
              else none },
    by rw [hti]; rfl, rfl, ?_, ?_⟩
  · intro h0
    simp [h0]
  · intro h0
    simp [h0]

/-- Claim C8 witness: the example status (`started_at = 0`). -/
theorem C8_witness :
    ∃ ti, exHitContainer.time_info = some ti ∧
      ti.create_time = fromtimestampUtc ((exStatus.created_at : ℚ) / 1000000000) ∧
      (exStatus.started_at = 0 → ti.start_time = none) ∧
      (exStatus.started_at ≠ 0 →
        ti.start_time = some (fromtimestampUtc ((exStatus.started_at : ℚ) / 1000000000))) :=
  C8_theorem exClientHit exStatus none exHitContainer rfl

/-- Claim C9: get_networks on an id absent from the daemon's current list
raises the KeyError of the unguarded mapping subscript rather than
returning absent/empty. -/
theorem C9_theorem (cl : ClientState) (rcs : List RuntimeContainer) (cid : String)
    (hlist : cl.daemon.listContainers = .ok rcs)
    (habsent : ∀ rc ∈ rcs, rc.id ≠ cid) :
    getNetworks cl cid = .error (.keyError cid) := by
  have hmap : containerSandboxMapping cl.daemon =
      .ok (rcs.map fun rc => (rc.id, rc.pod_sandbox_id)) := by
    simp [containerSandboxMapping, hlist, wrapGrpcRequest]
  have hlook : pyDictLookup (rcs.map fun rc => (rc.id, rc.pod_sandbox_id)) cid = none := by
    refine pyDictLookup_none ?_
    intro kv hkv
    obtain ⟨rc, hrc, rfl⟩ := List.mem_map.mp hkv
    exact habsent rc hrc
  simp [getNetworks, hmap, pyDictGet, hlook]

/-- Claim C9 witness: asking the healthy daemon about an unlisted id. -/
theorem C9_witness : getNetworks exClientHit "missing" = .error (.keyError "missing") :=
  C9_theorem exClientHit [exRc] "missing" rfl (by decide)

/-- Claim C10: a single-client get_container populates time_info from the
status message for any value of the all_info/verbose flag (the flag only
steers the verbose info payload, hence pid/process). -/
theorem C10_theorem (cl : ClientState) (cid : String) (a : Bool)
    (resp : ContainerStatusResponse) (c : Container)
    (hrpc : cl.daemon.containerStatus cid a = .ok resp)
    (h : clientGetContainer cl cid a = .ok (some c)) :
    c.time_info =
      some { create_time := fromtimestampUtc ((resp.status.created_at : ℚ) / 1000000000)
             start_time :=
               if resp.status.started_at ≠ 0 then
                 some (fromtimestampUtc ((resp.status.started_at : ℚ) / 1000000000))
               else none } := by
  obtain ⟨resp2, hrpc2, hcreate⟩ := getContainerInner_ok h
  rw [hrpc] at hrpc2
  injection hrpc2 with hr
  subst hr
  obtain ⟨hid, hti, hproc, hnets⟩ := createContainer_ok hcreate
  rw [hti]
  rfl

/-- Claim C10 witness: the example daemon queried with all_info = false. -/
theorem C10_witness :
    exHitContainer.time_info =
      some { create_time := fromtimestampUtc ((exStatus.created_at : ℚ) / 1000000000)
             start_time :=
               if exStatus.started_at ≠ 0 then
                 some (fromtimestampUtc ((exStatus.started_at : ℚ) / 1000000000))
               else none } :=
  C10_theorem exClientHit "c1" false ⟨exStatus, []⟩ exHitContainer rfl rfl

/-- Claim C1 counterexample: with `all_info = false` the translated
Container still carries non-empty `networks` (the enrichment round trip
happens unconditionally in `_create_container`), refuting "time_info,
networks, and process are all absent/empty". -/
theorem C1_counterexample :
    clientListContainers exClientHit false = .ok [exSummaryContainer] ∧
    exSummaryContainer.networks = [⟨"eth0", 10, 1, 20, 2⟩, ⟨"eth1", 7, 0, 8, 0⟩] ∧
    exSummaryContainer.networks ≠ [] ∧
    exSummaryContainer.time_info = none ∧
    exSummaryContainer.process = none :=
  ⟨rfl, rfl, by simp [exSummaryContainer, exHitContainer], rfl, rfl⟩

/-- Claim C1 (amended): `list_containers(all_info=False)` never populates
time_info or process, but networks is populated unconditionally by the live
enrichment; `all_info=True` additionally populates time_info always and
process only when the daemon's pid data permits. -/
theorem C1_theorem (cl : ClientState) :
    (∀ cs, clientListContainers cl false = .ok cs →
       ∀ c ∈ cs, c.time_info = none ∧ c.process = none ∧
         getNetworks cl c.id = .ok c.networks) ∧
    (∀ cs, clientListContainers cl true = .ok cs →
       ∀ c ∈ cs, (∃ ti, c.time_info = some ti) ∧
         getNetworks cl c.id = .ok c.networks ∧
         (∀ p, c.process = some p → p ≠ 0 ∧ cl.daemon.processExists p = true)) := by
  constructor
  · intro cs h
    unfold clientListContainers at h
    split at h
    · simp at h
    · exact listLoop_false_mem h
  · intro cs h
    unfold clientListContainers at h
    split at h
    · simp at h
    · exact listLoop_true_mem h

/-- Claim C1 witness: the amended statement at the example client. -/
theorem C1_witness :
    ∀ c ∈ [exSummaryContainer], c.time_info = none ∧ c.process = none ∧
      getNetworks exClientHit c.id = .ok c.networks :=
  (C1_theorem exClientHit).1 [exSummaryContainer] rfl

/-- Claim C2 counterexample: a Version RPC failing with INTERNAL — neither
an "unimplemented/not found" schema rejection nor a failure to establish
the connection — is swallowed by the probe, which falls back to v1alpha2
and succeeds, instead of propagating the failure. -/
theorem C2_counterexample :
    exDaemonInternal.version = .err .internal ∧
    (PyExc.rpcError .internal).isRpcError = true ∧
    getClient exWorldInternal "/run/containerd/containerd.sock" = .ok (some exClientNF) :=
  ⟨rfl, rfl, rfl⟩

/-- Claim C2 (amended): any grpc.RpcError during client construction —
whatever its status code — causes fallback from the newer generation to the
older one (absent result if both fail); only non-gRPC exception classes
propagate to the caller. -/
theorem C2_theorem (d : Daemon) (e : PyExc) (w : CriWorld) (path : String) :
    (tryCriClient d = .ok none ↔ ∃ code, d.version = .err code) ∧
    (e.isRpcError = true → tryCriClientWith (.error e) = .ok none) ∧
    (e.isRpcError = false → tryCriClientWith (.error e) = .error e) ∧
    (tryCriClient (w.v1 ("unix://" ++ w.resolveHostRootLinks path)) = .ok none →
       getClient w path =
         tryCriClient (w.v1alpha2 ("unix://" ++ w.resolveHostRootLinks path))) := by
  refine ⟨?_, ?_, ?_, ?_⟩
  · cases hv : d.version with
    | ok v =>
      simp [tryCriClient, tryCriClientWith, clientInit, hv]
    | err code =>
      simp [tryCriClient, tryCriClientWith, clientInit, hv, PyExc.isRpcError]
  · intro h
    simp [tryCriClientWith, h]
  · intro h
    simp [tryCriClientWith, h]
  · intro h
    simp only [getClient, h]

/-- Claim C2 witness: a non-gRPC exception class propagates. -/
theorem C2_witness :
    tryCriClientWith (.error (.keyError "boom")) = .error (.keyError "boom") :=
  (C2_theorem exDaemonNF (.keyError "boom") exWorldBoth "p").2.2.1 rfl

/-- Claim C3: on the good path get_networks keeps exactly the "eth*"
interfaces in order with their counters; but when the sandbox stats query
answers NOT_FOUND the code raises TypeError (iterating the None that
`_get_networks` deliberately returned) instead of the specified empty
sequence. -/
theorem C3_failing_run :
    getNetworks exClientHit "c1" =
      .ok [⟨"eth0", 10, 1, 20, 2⟩, ⟨"eth1", 7, 0, 8, 0⟩] ∧
    getNetworks exClientStatsNF "c1" = .error .typeError :=
  ⟨rfl, rfl⟩

/-- Claim C5: the aggregator's get_container queries the held clients in
probe order, returns the first non-absent result, and raises
ContainerNotFound of the requested id exactly when every client reported
absent. -/
theorem C5_theorem (clients : List ClientState) (cid : String) (a : Bool) :
    (criGetContainer clients cid a = .error (.containerNotFound cid) ↔
       ∀ cl ∈ clients, clientGetContainer cl cid a = .ok none) ∧
    (∀ pre cl post c, clients = pre ++ cl :: post →
       (∀ cl2 ∈ pre, clientGetContainer cl2 cid a = .ok none) →
       clientGetContainer cl cid a = .ok (some c) →
       criGetContainer clients cid a = .ok c) := by
  refine ⟨criGetContainer_notFound_iff clients cid a, ?_⟩
  intro pre cl post c hd hpre hcl
  rw [hd]
  exact criGetContainer_first cid a pre cl post c hpre hcl

/-- Claim C5 witness: a first absent client, then a hit. -/
theorem C5_witness :
    criGetContainer [exClientNF, exClientHit] "c1" false = .ok exHitContainer :=
  (C5_theorem [exClientNF, exClientHit] "c1" false).2 [exClientNF] exClientHit [] exHitContainer
    rfl (by intro cl2 h2; rw [List.mem_singleton] at h2; subst h2; rfl) rfl

/-- Claim C6: a NOT_FOUND status on a per-container RPC is translated to an
absent result: single-client get_container returns None, and the verbose
list loop silently omits a container whose status query reports it
missing. -/
theorem C6_theorem (cl : ClientState) (cid : String) (a : Bool) (rc : RuntimeContainer)
    (pre post : List RuntimeContainer) :
    (cl.daemon.containerStatus cid a = .err .notFound →
       clientGetContainer cl cid a = .ok none) ∧
    (cl.daemon.containerStatus rc.id true = .err .notFound →
       listLoop cl true (pre ++ rc :: post) = listLoop cl true (pre ++ post)) ∧
    (cl.daemon.listContainers = .ok (pre ++ rc :: post) →
       cl.daemon.containerStatus rc.id true = .err .notFound →
       clientListContainers cl true = listLoop cl true (pre ++ post)) := by
  refine ⟨?_, ?_, ?_⟩
  · intro h
    simp [clientGetContainer, getContainerInner, h, wrapGrpcRequest]
  · intro h
    exact listLoop_skip h pre post
  · intro hlist h
    unfold clientListContainers
    rw [hlist]
    exact listLoop_skip h pre post

/-- Claim C6 witness: the all-NOT_FOUND daemon reports the container
absent. -/
theorem C6_witness : clientGetContainer exClientNF "c1" false = .ok none :=
  (C6_theorem exClientNF "c1" false exRc [] []).1 rfl

/-- Claim C4: aggregator construction fails with CriNotAvailableError iff
every known socket path's probe fails; otherwise it succeeds holding the
probed clients, and get_runtimes is exactly their runtime names in probe
order. -/
theorem C4_theorem (w : CriWorld) :
    (criClientInit w = .error (.criNotAvailable RUNTIMES) ↔
       ∀ p ∈ RUNTIMES, probeOutcome w p = none) ∧
    (∀ clients, criClientInit w = .ok clients →
       getRuntimes clients =
         (RUNTIMES.filterMap (probeOutcome w)).map (fun cl => cl.runtime_name)) ∧
    ((∃ p ∈ RUNTIMES, probeOutcome w p ≠ none) →
       ∃ clients, criClientInit w = .ok clients ∧ clients ≠ []) := by
  have h1 := getClient_eq_probe w "/run/containerd/containerd.sock"
  have h2 := getClient_eq_probe w "/var/run/crio/crio.sock"
  rcases ho1 : probeOutcome w "/run/containerd/containerd.sock" with _ | c1 <;>
    rcases ho2 : probeOutcome w "/var/run/crio/crio.sock" with _ | c2 <;>
    rw [ho1] at h1 <;> rw [ho2] at h2
  · have hinit : criClientInit w = .error (.criNotAvailable RUNTIMES) := by
      simp [criClientInit, probeLoop, RUNTIMES, h1, h2]
    refine ⟨by simp [hinit, RUNTIMES, ho1, ho2], ?_, ?_⟩
    · intro clients hcl
      rw [hinit] at hcl
      simp at hcl
    · rintro ⟨p, hp, hne⟩
      simp only [RUNTIMES, List.mem_cons, List.not_mem_nil, or_false] at hp
      rcases hp with rfl | rfl
      · exact absurd ho1 hne
      · exact absurd ho2 hne
  · have hinit : criClientInit w = .ok [c2] := by
      simp [criClientInit, probeLoop, RUNTIMES, h1, h2]
    refine ⟨by simp [hinit, RUNTIMES, ho1, ho2], ?_, ?_⟩
    · intro clients hcl
      rw [hinit] at hcl
      injection hcl with hcl
      subst hcl
      simp [getRuntimes, RUNTIMES, ho1, ho2]
    · rintro ⟨p, hp, hne⟩
      exact ⟨[c2], hinit, by simp⟩
  · have hinit : criClientInit w = .ok [c1] := by
      simp [criClientInit, probeLoop, RUNTIMES, h1, h2]
    refine ⟨by simp [hinit, RUNTIMES, ho1, ho2], ?_, ?_⟩
    · intro clients hcl
      rw [hinit] at hcl
      injection hcl with hcl
      subst hcl
      simp [getRuntimes, RUNTIMES, ho1, ho2]
    · rintro ⟨p, hp, hne⟩
      exact ⟨[c1], hinit, by simp⟩
  · have hinit : criClientInit w = .ok [c1, c2] := by
      simp [criClientInit, probeLoop, RUNTIMES, h1, h2]
    refine ⟨by simp [hinit, RUNTIMES, ho1, ho2], ?_, ?_⟩
    · intro clients hcl
      rw [hinit] at hcl
      injection hcl with hcl
      subst hcl
      simp [getRuntimes, RUNTIMES, ho1, ho2]
    · rintro ⟨p, hp, hne⟩
      exact ⟨[c1, c2], hinit, by simp⟩

/-- Claim C4 witness: the world whose v1 endpoints all carry the healthy
daemon. -/
theorem C4_witness :
    getRuntimes [exClientHit, exClientHit] =
      (RUNTIMES.filterMap (probeOutcome exWorldBoth)).map (fun cl => cl.runtime_name) :=
  (C4_theorem exWorldBoth).2.1 [exClientHit, exClientHit] rfl

end Cri
